import Mathlib

/-!
Verification development for the DTP ingestion and processing pipeline
(src/dtp_download.py and src/dtp_processing.py).

The Python scripts are shallowly embedded below: raw payloads are modelled
by an explicit JSON value type, the buffer table lbn.dtp_buffer and the
destination table lbn.dtp_main are lists of rows, and the imperative batch
loop of dtp_processing.main is a fuel-indexed state transformer.  Store
faults (connection acquisition failure, injected insert failures) are
modelled by an explicit fault environment so that the error-handling paths
of the code are part of the semantics rather than abstracted away.
-/

namespace DTP

/-- JSON values, as produced by json.loads in the Python sources.
Numbers are modelled by rationals (the source only ever coerces them with
int() and float(); no claim depends on binary floating point behaviour). -/
inductive Json where
  | obj (fields : List (String × Json))
  | arr (elems : List Json)
  | str (s : String)
  | num (q : Rat)
  | bool (b : Bool)
  | null
deriving Inhabited

mutual

/-- Structural equality test on JSON values, modelling the equality the
database applies to the kart_id column on the unique-key check. -/
def jsonBeq : Json → Json → Bool
  | Json.obj a, Json.obj b => fieldsBeq a b
  | Json.arr a, Json.arr b => elemsBeq a b
  | Json.str a, Json.str b => a == b
  | Json.num a, Json.num b => a == b
  | Json.bool a, Json.bool b => a == b
  | Json.null, Json.null => true
  | _, _ => false

def fieldsBeq : List (String × Json) → List (String × Json) → Bool
  | [], [] => true
  | (k1, v1) :: r1, (k2, v2) :: r2 => k1 == k2 && jsonBeq v1 v2 && fieldsBeq r1 r2
  | _, _ => false

def elemsBeq : List Json → List Json → Bool
  | [], [] => true
  | a :: r1, b :: r2 => jsonBeq a b && elemsBeq r1 r2
  | _, _ => false

end

/-- Python truthiness on decoded JSON values: None, empty string, zero,
False, empty list and empty dict are falsy.  Used for the checks
"if not kart_id" and "if city_name" in dtp_processing.py. -/
def jsonFalsy : Json → Bool
  | Json.obj f => f.isEmpty
  | Json.arr l => l.isEmpty
  | Json.str s => s == ""
  | Json.num q => q == 0
  | Json.bool b => !b
  | Json.null => true

/-- Lookup in a decoded JSON object, modelling dict.get with no default
(absent key gives none, which stands for the Python None). -/
def dictGet (d : List (String × Json)) (k : String) : Option Json :=
  (d.find? (fun p => p.1 == k)).map (fun p => p.2)

/-- Gregorian calendar date produced by parse_date (strptime format
%d.%m.%Y).  The model checks the numeric ranges strptime enforces; exact
month-length validation is abstracted (no claim depends on it). -/
structure PDate where
  day : Nat
  month : Nat
  year : Nat
deriving DecidableEq

/-- Clock time produced by parse_time (strptime format %H:%M). -/
structure PTime where
  hour : Nat
  minute : Nat
deriving DecidableEq

/-- Digit-string parse used to model strptime field reads and int(). -/
def digitsToNat : String → Option Nat :=
  fun s => s.toNat?

/-- Model of datetime.strptime(s, "%d.%m.%Y").date() on a string input:
three dot-separated numeric fields with day in 1..31, month in 1..12. -/
def parseDateString (s : String) : Option PDate :=
  match (s.splitOn ".").map digitsToNat with
  | [some d, some m, some y] =>
      if 1 ≤ d ∧ d ≤ 31 ∧ 1 ≤ m ∧ m ≤ 12 then some ⟨d, m, y⟩ else none
  | _ => none

/-- Model of datetime.strptime(s, "%H:%M").time() on a string input. -/
def parseTimeString (s : String) : Option PTime :=
  match (s.splitOn ":").map digitsToNat with
  | [some h, some m] => if h ≤ 23 ∧ m ≤ 59 then some ⟨h, m⟩ else none
  | _ => none

/-- parse_date from dtp_processing.py: returns the parsed date when the
value is a nonempty parseable string, otherwise None (the bare except
turns any strptime failure, including non-string input, into None). -/
def parse_date (v : Option Json) : Option PDate :=
  match v with
  | some (Json.str s) => if s == "" then none else parseDateString s
  | _ => none

/-- parse_time from dtp_processing.py, analogous to parse_date. -/
def parse_time (v : Option Json) : Option PTime :=
  match v with
  | some (Json.str s) => if s == "" then none else parseTimeString s
  | _ => none

/-- Model of the Python int() coercion on a decoded JSON value: integers
pass through, rationals truncate toward zero, strings parse as optionally
signed decimal integers, booleans map to 0 and 1; anything else raises. -/
def intCoerce : Json → Option Int
  | Json.num q => some (q.num / (q.den : Int))
  | Json.str s =>
      let t := s.trim
      if t.startsWith "-" then
        (digitsToNat (t.drop 1)).map (fun n => -(n : Int))
      else if t.startsWith "+" then
        (digitsToNat (t.drop 1)).map (fun n => (n : Int))
      else
        (digitsToNat t).map (fun n => (n : Int))
  | Json.bool b => some (if b then 1 else 0)
  | _ => none

/-- parse_int from dtp_processing.py: int(value) if value is not None
else 0, with every failure swallowed into 0.  A JSON null decodes to the
Python None and therefore also yields 0. -/
def parse_int (v : Option Json) : Int :=
  match v with
  | none => 0
  | some Json.null => 0
  | some j => (intCoerce j).getD 0

/-- Decimal-string parse modelling float() on the forms the source feeds
it (optionally signed decimal digits with an optional fractional part).
Exponent and inf/nan forms are not modelled; no claim exercises them. -/
def parseDecimal (s : String) : Option Rat :=
  let t := s.trim
  let core := if t.startsWith "-" ∨ t.startsWith "+" then t.drop 1 else t
  let sign : Rat := if t.startsWith "-" then -1 else 1
  match core.splitOn "." with
  | [a] => (digitsToNat a).map (fun n => sign * (n : Rat))
  | [a, b] =>
      if a = "" ∧ b = "" then none
      else
        let ip : Option Nat := if a = "" then some 0 else digitsToNat a
        let fp : Option Nat := if b = "" then some 0 else digitsToNat b
        match ip, fp with
        | some i, some f =>
            some (sign * ((i : Rat) + (f : Rat) / ((10 : Rat) ^ b.length)))
        | _, _ => none
  | _ => none

/-- Model of str(value) for the values parse_float feeds to float():
strings render as themselves, numbers as decimal text (kept abstract as
the identity on the rational), everything else renders to text float()
rejects.  Captured by returning the value float() would recover. -/
def floatCoerce : Json → Option Rat
  | Json.num q => some q
  | Json.str s => parseDecimal (s.replace "," ".")
  | _ => none

/-- parse_float from dtp_processing.py:
float(str(value).replace(",", ".")) if value is not None else 0.0, with
every failure swallowed into 0.0.  For a numeric value the str/float
round trip is the identity; for a string the comma is first replaced by a
dot; str() output of booleans, lists and dicts never parses. -/
def parse_float (v : Option Json) : Rat :=
  match v with
  | none => 0
  | some Json.null => 0
  | some j => (floatCoerce j).getD 0

/-- A row of the buffer table lbn.dtp_buffer.  The timestamp value of
date_processing never matters to the pipeline, only whether it is set,
so it is modelled by a Bool (true means the column is non-null). -/
structure RawRecord where
  id : Nat
  region_id : String
  district_id : String
  raw_json : Json
  city_name : Option String
  date_processing : Bool
  is_error : Bool

/-- A row of the destination table lbn.dtp_main, one field per column of
the INSERT in dtp_processing.main, in the same order.  Columns the code
fills with raw dict values keep type Json (the code passes the decoded
value straight through to the driver). -/
structure DtpMain where
  kart_id : Json
  region_id : String
  district_id : String
  row_num : Int
  dtp_date : Option PDate
  dtp_time : Option PTime
  district : Json
  dtp_type : Json
  deaths : Int
  wounded : Int
  vehicles_count : Int
  participants_count : Int
  emtp_number : Json
  settlement : Json
  street : Json
  house : Json
  road : Json
  km : Json
  m : Json
  road_category : Json
  road_class : Json
  road_quality : Json
  weather : Json
  road_condition : Json
  lighting : Json
  dtp_severity : Json
  coord_w : Rat
  coord_l : Rat

/-- Joint state of the two tables the processing script touches. -/
structure PState where
  buffer : List RawRecord
  dtp_main : List DtpMain

/-- Fault environment for the processing of one RawRecord.  acquire_ok
models whether get_connection for the record returns a connection after
its internal retries; insert_fault injects an exception into the INSERT
of the item at a given index (the Bool tags it transient, a distinction
the except clauses of the code never consult); mark_error_ok models
whether the best-effort error-marking connection and UPDATE succeed. -/
structure FaultEnv where
  acquire_ok : Bool
  insert_fault : Nat → Option Bool
  mark_error_ok : Bool

/-- The fault-free environment: every store operation succeeds. -/
def pureEnv : FaultEnv :=
  { acquire_ok := true, insert_fault := fun _ => none, mark_error_ok := true }

/-- Eligibility of a buffer row for processing:
date_processing IS NULL AND is_error = FALSE. -/
def eligible (r : RawRecord) : Bool :=
  !r.date_processing && !r.is_error

/-- Insertion step of the insertion sort modelling ORDER BY id. -/
def insertById (r : RawRecord) : List RawRecord → List RawRecord
  | [] => [r]
  | x :: xs => if r.id ≤ x.id then r :: x :: xs else x :: insertById r xs

/-- Sort buffer rows by ascending id, modelling ORDER BY id. -/
def sortById (l : List RawRecord) : List RawRecord :=
  l.foldr insertById []

/-- The batch query of dtp_processing.main: eligible rows, ordered by
ascending id, LIMIT lim. -/
def select_batch (st : PState) (lim : Nat) : List RawRecord :=
  (sortById (st.buffer.filter eligible)).take lim

/-- UPDATE lbn.dtp_buffer SET date_processing = CURRENT_TIMESTAMP
WHERE id = rid. -/
def mark_processed (st : PState) (rid : Nat) : PState :=
  { st with buffer :=
      st.buffer.map (fun r =>
        if r.id = rid then { r with date_processing := true } else r) }

/-- UPDATE lbn.dtp_buffer SET is_error = TRUE WHERE id = rid. -/
def mark_error (st : PState) (rid : Nat) : PState :=
  { st with buffer :=
      st.buffer.map (fun r =>
        if r.id = rid then { r with is_error := true } else r) }

/-- INSERT INTO lbn.dtp_main under the unique constraint on kart_id: on
a key conflict the UniqueViolation handler of the code swallows the
error and leaves the table unchanged; otherwise the row is appended. -/
def insert_dtp_main (st : PState) (row : DtpMain) : PState :=
  if st.dtp_main.any (fun r => jsonBeq r.kart_id row.kart_id) then st
  else { st with dtp_main := st.dtp_main ++ [row] }

/-- Decoding of a raw_json column value into the list of logical items:
a dict is a one-element list, a list is taken elementwise, any other
decoded shape raises (the ValueError branch of the code).  This collapses
the two code paths (value already a dict, or a string run through
json.loads) into one function of the decoded value. -/
def decode_items : Json → Option (List Json)
  | Json.obj f => some [Json.obj f]
  | Json.arr l => some l
  | _ => none

/-- The city_name defaulting at the top of the per-record loop:
city_name if city_name else the fixed fallback text. -/
def effCity : Option String → String
  | some s => if s == "" then "Не указан" else s
  | none => "Не указан"

/-- Access to info = data.get("infoDtp", default dict).  An absent key
yields the empty dict; a present dict yields its fields; any other
present value (including null, which decodes to the Python None) makes
the later attribute accesses raise, reported here as none. -/
def getInfo (d : List (String × Json)) : Option (List (String × Json)) :=
  match dictGet d "infoDtp" with
  | none => some []
  | some (Json.obj f) => some f
  | some _ => none

/-- Construction of the dtp_main row for one item, mirroring the VALUES
tuple of the INSERT in dtp_processing.main field by field. -/
def buildRow (reg dist : String) (city : String)
    (d info : List (String × Json)) (kart : Json) : DtpMain :=
  { kart_id := kart
    region_id := reg
    district_id := dist
    row_num := parse_int (dictGet d "rowNum")
    dtp_date := parse_date (dictGet d "date")
    dtp_time := parse_time (dictGet d "Time")
    district := (dictGet d "District").getD (Json.str "")
    dtp_type := (dictGet d "DTP_V").getD (Json.str "")
    deaths := parse_int (dictGet d "POG")
    wounded := parse_int (dictGet d "RAN")
    vehicles_count := parse_int (dictGet d "K_TS")
    participants_count := parse_int (dictGet d "K_UCH")
    emtp_number := (dictGet d "emtp_number").getD (Json.str "")
    settlement := (dictGet info "n_p").getD (Json.str city)
    street := (dictGet info "street").getD (Json.str "")
    house := (dictGet info "house").getD (Json.str "")
    road := (dictGet info "dor").getD (Json.str "")
    km := (dictGet info "km").getD (Json.str "")
    m := (dictGet info "m").getD (Json.str "")
    road_category := (dictGet info "k_ul").getD (Json.str "")
    road_class := (dictGet info "dor_z").getD (Json.str "")
    road_quality := (dictGet info "s_pch").getD (Json.str "")
    weather := (dictGet info "osv").getD (Json.str "")
    road_condition := (dictGet info "sdor").getD (Json.str "")
    lighting := (dictGet info "change_org_motion").getD (Json.str "")
    dtp_severity := (dictGet info "s_dtp").getD (Json.str "")
    coord_w := parse_float (dictGet info "COORD_W")
    coord_l := parse_float (dictGet info "COORD_L") }

/-- The skip conditions of the item loop: an element that is not a dict,
or whose KartId is absent or falsy, is skipped with continue. -/
def itemSkipped : Json → Bool
  | Json.obj d => jsonFalsy ((dictGet d "KartId").getD Json.null)
  | _ => true

/-- Shape discriminator for the decoded payload: true when the value is
neither an object nor an array. -/
def notObjArr : Json → Bool
  | Json.obj _ => false
  | Json.arr _ => false
  | _ => true

/-- The for-loop over data_list in dtp_processing.main.  Walks the items
at their positions in the decoded list, threading the table state; the
returned Bool reports whether an exception escaped the loop (injected
insert failure or an info access on a non-dict infoDtp value).  A
successful item first upserts its dtp_main row and then immediately sets
date_processing on the owning buffer row (the UPDATE sits inside the
item loop in the source). -/
def processItems (env : FaultEnv) (rid : Nat) (reg dist city : String) :
    List Json → Nat → PState → PState × Bool
  | [], _, st => (st, false)
  | item :: rest, idx, st =>
    match item with
    | Json.obj d =>
      let kart := (dictGet d "KartId").getD Json.null
      if jsonFalsy kart then processItems env rid reg dist city rest (idx + 1) st
      else
        match getInfo d with
        | none => (st, true)
        | some info =>
          match env.insert_fault idx with
          | some _ => (st, true)
          | none =>
            let st1 := insert_dtp_main st (buildRow reg dist city d info kart)
            let st2 := mark_processed st1 rid
            processItems env rid reg dist city rest (idx + 1) st2
    | _ => processItems env rid reg dist city rest (idx + 1) st

/-- Processing of one buffer row, mirroring the per-record block of
dtp_processing.main: failure to acquire the record connection skips the
record (continue); a payload of unusable shape raises and the record is
marked errored (when the best-effort marking succeeds); otherwise the
items run in order and an escaped exception marks the record errored on
top of whatever earlier writes already committed (autocommit). -/
def process_record (env : FaultEnv) (st : PState) (r : RawRecord) : PState :=
  if !env.acquire_ok then st
  else
    match decode_items r.raw_json with
    | none => if env.mark_error_ok then mark_error st r.id else st
    | some items =>
      let res := processItems env r.id r.region_id r.district_id
        (effCity r.city_name) items 0 st
      if res.2 then
        if env.mark_error_ok then mark_error res.1 r.id else res.1
      else res.1

/-- Sequential processing of the rows of one selected batch. -/
def process_batch (env : FaultEnv) (st : PState) (rows : List RawRecord) : PState :=
  rows.foldl (process_record env) st

/-- The batch loop of dtp_processing.main under the fault-free
environment, indexed by fuel: each round selects up to 10 eligible rows
(batch_size = 10) and stops when the selection is empty. -/
def runN : Nat → PState → PState
  | 0, st => st
  | fuel + 1, st =>
    let rows := select_batch st 10
    if rows.isEmpty then st else runN fuel (process_batch pureEnv st rows)

/-- get_connection from dtp_processing.py, driven by per-attempt
outcomes: at most remaining further attempts are made starting at index
attempt; a failed attempt sleeps 2 ^ attempt seconds unless it was the
last one.  Returns whether a connection was obtained together with the
list of sleeps performed. -/
def get_connection_go (outcomes : Nat → Bool) : Nat → Nat → Bool × List Nat
  | _, 0 => (false, [])
  | attempt, remaining + 1 =>
    if outcomes attempt then (true, [])
    else if remaining = 0 then (false, [])
    else
      let rest := get_connection_go outcomes (attempt + 1) remaining
      (rest.1, 2 ^ attempt :: rest.2)

/-- get_connection with its fixed cap max_attempts = 3. -/
def get_connection (outcomes : Nat → Bool) : Bool × List Nat :=
  get_connection_go outcomes 0 3

/-- Entry of dtp_processing.main: abort untouched when the initial
connection cannot be obtained, return early when no row is eligible,
otherwise run the batch loop. -/
def runJob (outcomes : Nat → Bool) (fuel : Nat) (st : PState) : PState :=
  if (get_connection outcomes).1 = false then st
  else if (st.buffer.filter eligible).length = 0 then st
  else runN fuel st

/-- Optional command-line date-window arguments of dtp_download.py. -/
structure DownloadArgs where
  start_year : Option Int
  start_month : Option Int
  end_year : Option Int
  end_month : Option Int

/-- get_date_range from dtp_download.py: the default window ends at the
current (year, month); the default start month is the current month
minus 5, wrapped into the previous year when non-positive; explicit
arguments override the defaults componentwise.  Returns
(start_year, start_month, end_year, end_month). -/
def get_date_range (args : DownloadArgs) (now_year now_month : Int) :
    Int × Int × Int × Int :=
  let default_end_year := now_year
  let default_end_month := now_month
  let dsm0 := default_end_month - 5
  let dsy0 := default_end_year
  let dsy := if dsm0 ≤ 0 then dsy0 - 1 else dsy0
  let dsm := if dsm0 ≤ 0 then dsm0 + 12 else dsm0
  (args.start_year.getD dsy, args.start_month.getD dsm,
   args.end_year.getD default_end_year, args.end_month.getD default_end_month)

/-- The idempotency invariant of the destination table: no two rows agree
on the kart_id business key under the database equality. -/
def uniqueKeys (l : List DtpMain) : Prop :=
  l.Pairwise (fun a b => jsonBeq a.kart_id b.kart_id = false)

theorem mark_processed_dtp_main (st : PState) (rid : Nat) :
    (mark_processed st rid).dtp_main = st.dtp_main := rfl

theorem mark_error_dtp_main (st : PState) (rid : Nat) :
    (mark_error st rid).dtp_main = st.dtp_main := rfl

theorem insert_dtp_main_buffer (st : PState) (row : DtpMain) :
    (insert_dtp_main st row).buffer = st.buffer := by
  unfold insert_dtp_main
  split <;> rfl

theorem insert_dtp_main_uniqueKeys (st : PState) (row : DtpMain)
    (h : uniqueKeys st.dtp_main) : uniqueKeys (insert_dtp_main st row).dtp_main := by
  unfold insert_dtp_main
  split
  · exact h
  · rename_i hany
    refine List.pairwise_append.mpr ⟨h, List.pairwise_singleton _ _, ?_⟩
    intro a ha b hb
    have hb2 : b = row := by simpa using hb
    subst hb2
    have := (List.any_eq_false.mp (Bool.not_eq_true _ |>.mp hany)) a ha
    simpa using this

theorem processItems_uniqueKeys (env : FaultEnv) (rid : Nat) (reg dist city : String) :
    ∀ (items : List Json) (idx : Nat) (st : PState),
      uniqueKeys st.dtp_main →
      uniqueKeys ((processItems env rid reg dist city items idx st).1).dtp_main := by
  intro items
  induction items with
  | nil => intro idx st h; simpa [processItems] using h
  | cons item rest ih =>
    intro idx st h
    cases item with
    | obj d =>
      simp only [processItems]
      split
      · exact ih _ _ h
      · split
        · exact h
        · split
          · exact h
          · apply ih
            rw [mark_processed_dtp_main]
            exact insert_dtp_main_uniqueKeys _ _ h
    | arr l => exact ih _ _ h
    | str s => exact ih _ _ h
    | num q => exact ih _ _ h
    | bool b => exact ih _ _ h
    | null => exact ih _ _ h

theorem process_record_uniqueKeys (env : FaultEnv) (st : PState) (r : RawRecord)
    (h : uniqueKeys st.dtp_main) : uniqueKeys (process_record env st r).dtp_main := by
  unfold process_record
  split
  · exact h
  · split
    · split
      · rw [mark_error_dtp_main]; exact h
      · exact h
    · rename_i items heq
      have hres := processItems_uniqueKeys env r.id r.region_id r.district_id
        (effCity r.city_name) items 0 st h
      split
      · dsimp only
        split
        · rw [mark_error_dtp_main]; exact hres
        · exact hres
      · dsimp only
        split
        · exact hres
        · exact hres

theorem process_batch_uniqueKeys (env : FaultEnv) :
    ∀ (rows : List RawRecord) (st : PState),
      uniqueKeys st.dtp_main → uniqueKeys (process_batch env st rows).dtp_main := by
  intro rows
  induction rows with
  | nil => intro st h; simpa [process_batch] using h
  | cons r rest ih =>
    intro st h
    simpa [process_batch] using ih _ (process_record_uniqueKeys env st r h)

theorem runN_uniqueKeys :
    ∀ (fuel : Nat) (st : PState),
      uniqueKeys st.dtp_main → uniqueKeys (runN fuel st).dtp_main := by
  intro fuel
  induction fuel with
  | zero => intro st h; simpa [runN] using h
  | succ f ih =>
    intro st h
    simp only [runN]
    split
    · exact h
    · exact ih _ (process_batch_uniqueKeys pureEnv _ st h)

theorem runN_of_empty_batch (st : PState) (h : select_batch st 10 = []) :
    ∀ g : Nat, runN g st = st := by
  intro g
  cases g with
  | zero => rfl
  | succ g2 => simp [runN, h]

/-- Claim C1: re-running the batch processor over an unchanged buffer
changes nothing once a run has completed (its final batch selection was
empty); the unique-key invariant of dtp_main is preserved by every run;
and an item whose business key already exists in dtp_main is absorbed by
the conflict-tolerant upsert: the table is unchanged, no exception is
raised, and processing continues exactly as for a fresh key. -/
theorem C1_idempotent_upsert :
    (∀ (st : PState) (f g : Nat), select_batch (runN f st) 10 = [] →
        runN g (runN f st) = runN f st)
    ∧ (∀ (st : PState) (f : Nat), uniqueKeys st.dtp_main →
        uniqueKeys (runN f st).dtp_main)
    ∧ (∀ (env : FaultEnv) (rid : Nat) (reg dist city : String)
        (d info : List (String × Json)) (rest : List Json) (idx : Nat) (st : PState),
        env.insert_fault idx = none →
        jsonFalsy ((dictGet d "KartId").getD Json.null) = false →
        getInfo d = some info →
        st.dtp_main.any
          (fun r2 => jsonBeq r2.kart_id ((dictGet d "KartId").getD Json.null)) = true →
        processItems env rid reg dist city (Json.obj d :: rest) idx st
          = processItems env rid reg dist city rest (idx + 1) (mark_processed st rid)) := by
  refine ⟨?_, ?_, ?_⟩
  · intro st f g hdone
    exact runN_of_empty_batch _ hdone g
  · intro st f h
    exact runN_uniqueKeys f st h
  · intro env rid reg dist city d info rest idx st hf hk hi hany
    have hins : insert_dtp_main st
        (buildRow reg dist city d info ((dictGet d "KartId").getD Json.null)) = st := by
      simp [insert_dtp_main, buildRow, hany]
    simp only [processItems, hk, hi, hf, Bool.false_eq_true, if_false, hins]

/-- Concrete dtp_main row used to witness the conflict-absorption part
of C1: the row produced by an item whose business key is "A". -/
def c1RowA : DtpMain :=
  buildRow "46" "46440" "Лобня" [("KartId", Json.str "A")] [] (Json.str "A")

theorem C1_witness :
    (select_batch (runN 0 ⟨[], []⟩) 10 = [] ∧
      runN 1 (runN 0 ⟨[], []⟩) = runN 0 ⟨[], []⟩)
    ∧ (uniqueKeys (PState.mk [] []).dtp_main ∧ uniqueKeys (runN 1 ⟨[], []⟩).dtp_main)
    ∧ (pureEnv.insert_fault 0 = none ∧
       jsonFalsy ((dictGet [("KartId", Json.str "A")] "KartId").getD Json.null) = false ∧
       getInfo [("KartId", Json.str "A")] = some [] ∧
       (PState.mk [] [c1RowA]).dtp_main.any
         (fun r2 => jsonBeq r2.kart_id
           ((dictGet [("KartId", Json.str "A")] "KartId").getD Json.null)) = true ∧
       processItems pureEnv 1 "46" "46440" "Лобня"
           [Json.obj [("KartId", Json.str "A")]] 0 ⟨[], [c1RowA]⟩
         = processItems pureEnv 1 "46" "46440" "Лобня" [] (0 + 1)
             (mark_processed ⟨[], [c1RowA]⟩ 1)) := by
  refine ⟨⟨rfl, ?_⟩, ⟨List.Pairwise.nil, ?_⟩, rfl, rfl, rfl, rfl, ?_⟩
  · exact C1_idempotent_upsert.1 ⟨[], []⟩ 0 1 rfl
  · exact C1_idempotent_upsert.2.1 ⟨[], []⟩ 1 List.Pairwise.nil
  · exact C1_idempotent_upsert.2.2 pureEnv 1 "46" "46440" "Лобня"
      [("KartId", Json.str "A")] [] [] 0 ⟨[], [c1RowA]⟩ rfl rfl rfl rfl

/-- Buffer row whose payload parses to a list in which no element is a
dict with a usable business key: the item loop skips everything, so the
row is neither marked processed nor marked errored. -/
def c10Rec : RawRecord :=
  { id := 1, region_id := "46", district_id := "46440",
    raw_json := Json.arr [Json.num 7], city_name := some "Лобня",
    date_processing := false, is_error := false }

/-- Buffer state exhibiting the nontermination of the batch loop. -/
def c10St : PState := { buffer := [c10Rec], dtp_main := [] }

/-- Claim C10: on the state holding one eligible record whose decoded
payload contains no processable item, every amount of fuel leaves the
state fixed and the batch selection never becomes empty, so the
unbounded loop of dtp_processing.main never reaches its exit condition:
the run does not terminate. -/
theorem C10_nontermination :
    ∀ fuel : Nat, runN fuel c10St = c10St ∧ select_batch (runN fuel c10St) 10 ≠ [] := by
  have hsel : select_batch c10St 10 = [c10Rec] := rfl
  have hpb : process_batch pureEnv c10St [c10Rec] = c10St := rfl
  intro fuel
  induction fuel with
  | zero =>
    refine ⟨rfl, ?_⟩
    rw [runN, hsel]
    simp
  | succ f ih =>
    have hstep : runN (f + 1) c10St = runN f c10St := by
      rw [runN]
      simp only [hsel, hpb]
      rfl
    refine ⟨by rw [hstep, ih.1], ?_⟩
    rw [hstep, ih.1, hsel]
    simp

/-- Fault environment for the C2 scenario: the INSERT of the second item
(index 1) fails for a persistent, non-conflict reason. -/
def c2Env : FaultEnv :=
  { acquire_ok := true,
    insert_fault := fun i => if i = 1 then some false else none,
    mark_error_ok := true }

/-- Buffer row whose payload holds two items with distinct business
keys; the first upserts and marks successfully, the second fails. -/
def c2Rec : RawRecord :=
  { id := 1, region_id := "46", district_id := "46440",
    raw_json := Json.arr [Json.obj [("KartId", Json.str "A")],
                          Json.obj [("KartId", Json.str "B")]],
    city_name := some "Лобня", date_processing := false, is_error := false }

/-- Initial state for the C2 scenario. -/
def c2St : PState := { buffer := [c2Rec], dtp_main := [] }

/-- Claim C2 (code bug): on a record whose first item succeeds and whose
second item hits a persistent insert failure, the code leaves the buffer
row with date_processing set AND is_error true at once: the UPDATE that
sets date_processing sits inside the per-item loop, so it has already
committed before the later item fails and triggers mark_error.  The
exclusive three-state invariant claimed by the specification is false on
this input, while the first item has still been normalized. -/
theorem C2_both_flags_at_failing_input :
    (process_record c2Env c2St c2Rec).buffer.map
        (fun r => (r.date_processing, r.is_error)) = [(true, true)]
    ∧ (process_record c2Env c2St c2Rec).buffer.all
        (fun r => !(r.date_processing && r.is_error)) = false
    ∧ (process_record c2Env c2St c2Rec).dtp_main
        = [buildRow "46" "46440" "Лобня" [("KartId", Json.str "A")] [] (Json.str "A")] := by
  exact ⟨rfl, rfl, rfl⟩

theorem mark_processed_id_mem (st : PState) (rid : Nat) (x : RawRecord)
    (hx : x ∈ st.buffer) :
    ∃ y ∈ (mark_processed st rid).buffer, y.id = x.id := by
  refine ⟨if x.id = rid then { x with date_processing := true } else x, ?_, ?_⟩
  · unfold mark_processed
    simpa using List.mem_map_of_mem _ hx
  · split <;> rfl

theorem mark_error_flag (st : PState) (rid : Nat) (x : RawRecord)
    (hx : x ∈ st.buffer) (hid : x.id = rid) :
    ∃ y ∈ (mark_error st rid).buffer,
      y.id = rid ∧ y.is_error = true ∧ y.date_processing = x.date_processing := by
  refine ⟨{ x with is_error := true }, ?_, ?_, rfl, rfl⟩
  · unfold mark_error
    have hmap := List.mem_map_of_mem
      (fun r : RawRecord => if r.id = rid then { r with is_error := true } else r) hx
    simpa [hid] using hmap
  · simpa using hid

theorem processItems_id_mem (env : FaultEnv) (rid : Nat) (reg dist city : String) :
    ∀ (items : List Json) (idx : Nat) (st : PState) (x : RawRecord),
      x ∈ st.buffer →
      ∃ y ∈ (processItems env rid reg dist city items idx st).1.buffer, y.id = x.id := by
  intro items
  induction items with
  | nil => intro idx st x hx; exact ⟨x, hx, rfl⟩
  | cons item rest ih =>
    intro idx st x hx
    cases item with
    | obj d =>
      simp only [processItems]
      split
      · exact ih _ _ _ hx
      · split
        · exact ⟨x, hx, rfl⟩
        · split
          · exact ⟨x, hx, rfl⟩
          · rename_i oscr1 info heqinfo oscr2 heqfault
            obtain ⟨y, hy, hyid⟩ := mark_processed_id_mem
              (insert_dtp_main st (buildRow reg dist city d info
                ((dictGet d "KartId").getD Json.null))) rid x
              (by rw [insert_dtp_main_buffer]; exact hx)
            obtain ⟨z, hz, hzid⟩ := ih _ _ y hy
            exact ⟨z, hz, by rw [hzid, hyid]⟩
    | arr l => exact ih _ _ _ hx
    | str s => exact ih _ _ _ hx
    | num q => exact ih _ _ _ hx
    | bool b => exact ih _ _ _ hx
    | null => exact ih _ _ _ hx

/-- Fault environment in which a transient store failure hits the INSERT
of the first item while everything else works. -/
def c3Env : FaultEnv :=
  { acquire_ok := true,
    insert_fault := fun i => if i = 0 then some true else none,
    mark_error_ok := true }

/-- Buffer row with a single well-formed item for the C3 scenario. -/
def c3Rec : RawRecord :=
  { id := 1, region_id := "46", district_id := "46440",
    raw_json := Json.obj [("KartId", Json.str "K")],
    city_name := some "Лобня", date_processing := false, is_error := false }

/-- Initial state for the C3 scenario. -/
def c3St : PState := { buffer := [c3Rec], dtp_main := [] }

/-- Fault environment in which the per-record connection acquisition
fails (get_connection exhausts its retries for the record). -/
def c3EnvOff : FaultEnv :=
  { acquire_ok := false, insert_fault := fun _ => none, mark_error_ok := true }

/-- Claim C3 counterexample: a transient store failure hitting the
INSERT during the processing of a record does NOT leave the record Eligible:
the generic exception handler of the code marks it errored just like a
persistent failure, because the except clause never distinguishes
transient from persistent exceptions.  The record ends Quarantined. -/
theorem C3_counterexample :
    c3Env.insert_fault 0 = some true
    ∧ (process_record c3Env c3St c3Rec).buffer.map
        (fun r => (r.date_processing, r.is_error)) = [(false, true)]
    ∧ eligible { c3Rec with is_error := true } = false := ⟨rfl, rfl, rfl⟩

/-- Claim C3 (amended): only a connectivity failure at the acquisition
of the dedicated connection of the record leaves the record untouched for this run
(hence still Eligible); any exception escaping the item loop — a
transient store failure included — ends with the record marked errored
whenever the best-effort error marking itself succeeds. -/
theorem C3_amended :
    (∀ (env : FaultEnv) (st : PState) (r : RawRecord),
        env.acquire_ok = false → process_record env st r = st)
    ∧ (∀ (env : FaultEnv) (st : PState) (r : RawRecord) (items : List Json),
        env.acquire_ok = true → env.mark_error_ok = true →
        decode_items r.raw_json = some items →
        r ∈ st.buffer →
        (processItems env r.id r.region_id r.district_id
          (effCity r.city_name) items 0 st).2 = true →
        ∃ y ∈ (process_record env st r).buffer, y.id = r.id ∧ y.is_error = true) := by
  constructor
  · intro env st r h
    unfold process_record
    simp [h]
  · intro env st r items hacq hmark hdec hmem hraise
    have h1 : process_record env st r
        = mark_error (processItems env r.id r.region_id r.district_id
            (effCity r.city_name) items 0 st).1 r.id := by
      unfold process_record
      rw [hacq, hdec]
      simp [hraise, hmark]
    obtain ⟨y, hy, hyid⟩ := processItems_id_mem env r.id r.region_id r.district_id
      (effCity r.city_name) items 0 st r hmem
    obtain ⟨z, hz, hzid, hzerr, _⟩ := mark_error_flag _ r.id y hy hyid
    rw [h1]
    refine ⟨z, hz, ?_, hzerr⟩
    rw [hzid, ← hyid, hyid]

theorem C3_witness :
    (c3EnvOff.acquire_ok = false
     ∧ process_record c3EnvOff c3St c3Rec = c3St)
    ∧ (c3Env.acquire_ok = true ∧ c3Env.mark_error_ok = true
       ∧ decode_items c3Rec.raw_json = some [Json.obj [("KartId", Json.str "K")]]
       ∧ c3Rec ∈ c3St.buffer
       ∧ (processItems c3Env c3Rec.id c3Rec.region_id c3Rec.district_id
           (effCity c3Rec.city_name) [Json.obj [("KartId", Json.str "K")]] 0 c3St).2 = true
       ∧ ∃ y ∈ (process_record c3Env c3St c3Rec).buffer,
           y.id = c3Rec.id ∧ y.is_error = true) := by
  refine ⟨⟨rfl, C3_amended.1 c3EnvOff c3St c3Rec rfl⟩,
    rfl, rfl, rfl, List.mem_singleton_self c3Rec, rfl, ?_⟩
  exact C3_amended.2 c3Env c3St c3Rec [Json.obj [("KartId", Json.str "K")]]
    rfl rfl rfl (List.mem_singleton_self c3Rec) rfl

theorem processItems_skip_step (env : FaultEnv) (rid : Nat) (reg dist city : String)
    (item : Json) (rest : List Json) (idx : Nat) (st : PState)
    (h : itemSkipped item = true) :
    processItems env rid reg dist city (item :: rest) idx st
      = processItems env rid reg dist city rest (idx + 1) st := by
  cases item with
  | obj d =>
    have hf : jsonFalsy ((dictGet d "KartId").getD Json.null) = true := by
      simpa [itemSkipped] using h
    simp only [processItems, hf, if_true]
  | arr l => rfl
  | str s => rfl
  | num q => rfl
  | bool b => rfl
  | null => rfl

theorem processItems_skip_all (env : FaultEnv) (rid : Nat) (reg dist city : String) :
    ∀ (items : List Json) (idx : Nat) (st : PState),
      (∀ i ∈ items, itemSkipped i = true) →
      processItems env rid reg dist city items idx st = (st, false) := by
  intro items
  induction items with
  | nil => intro idx st _; rfl
  | cons item rest ih =>
    intro idx st h
    rw [processItems_skip_step env rid reg dist city item rest idx st
      (h item (List.mem_cons_self _ _))]
    exact ih _ _ (fun i hi => h i (List.mem_cons_of_mem _ hi))

/-- Claim C4: a decoded element that is an object without a usable
business key (KartId absent or falsy) is skipped: the item loop moves on
with the state untouched, so the element contributes no dtp_main row,
raises nothing and cannot cause the owning record to be marked errored;
and a record all of whose elements are skipped finishes the loop with no
state change and no exception at all. -/
theorem C4_missing_key_skip :
    (∀ (env : FaultEnv) (rid : Nat) (reg dist city : String)
        (d : List (String × Json)) (rest : List Json) (idx : Nat) (st : PState),
        jsonFalsy ((dictGet d "KartId").getD Json.null) = true →
        processItems env rid reg dist city (Json.obj d :: rest) idx st
          = processItems env rid reg dist city rest (idx + 1) st)
    ∧ (∀ (env : FaultEnv) (rid : Nat) (reg dist city : String)
        (items : List Json) (idx : Nat) (st : PState),
        (∀ i ∈ items, itemSkipped i = true) →
        processItems env rid reg dist city items idx st = (st, false)) := by
  constructor
  · intro env rid reg dist city d rest idx st h
    exact processItems_skip_step env rid reg dist city (Json.obj d) rest idx st
      (by simpa [itemSkipped] using h)
  · exact fun env rid reg dist city => processItems_skip_all env rid reg dist city

theorem C4_witness :
    (jsonFalsy ((dictGet [("foo", Json.num 1)] "KartId").getD Json.null) = true
     ∧ processItems pureEnv 1 "46" "46440" "Лобня"
         (Json.obj [("foo", Json.num 1)] :: []) 0 ⟨[], []⟩
       = processItems pureEnv 1 "46" "46440" "Лобня" [] (0 + 1) ⟨[], []⟩)
    ∧ ((∀ i ∈ [Json.num 3, Json.obj []], itemSkipped i = true)
       ∧ processItems pureEnv 1 "46" "46440" "Лобня"
           [Json.num 3, Json.obj []] 0 ⟨[], []⟩ = (⟨[], []⟩, false)) := by
  refine ⟨⟨rfl, ?_⟩, ⟨by decide, ?_⟩⟩
  · exact C4_missing_key_skip.1 pureEnv 1 "46" "46440" "Лобня"
      [("foo", Json.num 1)] [] 0 ⟨[], []⟩ rfl
  · exact C4_missing_key_skip.2 pureEnv 1 "46" "46440" "Лобня"
      [Json.num 3, Json.obj []] 0 ⟨[], []⟩ (by decide)

/-- Claim C5: a payload decoding to an object is treated as the
one-element sequence holding it, an array is iterated elementwise, and
any other decoded shape is rejected; a buffer row whose payload is
rejected stays in the buffer and is marked errored, with its
date_processing column untouched — quarantined, neither dropped nor
marked processed. -/
theorem C5_shape :
    (∀ f : List (String × Json), decode_items (Json.obj f) = some [Json.obj f])
    ∧ (∀ l : List Json, decode_items (Json.arr l) = some l)
    ∧ (∀ j : Json, notObjArr j = true → decode_items j = none)
    ∧ (∀ (st : PState) (r : RawRecord), r ∈ st.buffer →
        decode_items r.raw_json = none →
        ∃ y ∈ (process_record pureEnv st r).buffer,
          y.id = r.id ∧ y.is_error = true ∧ y.date_processing = r.date_processing) := by
  refine ⟨fun f => rfl, fun l => rfl, ?_, ?_⟩
  · intro j h
    cases j <;> first | rfl | simp [notObjArr] at h
  · intro st r hmem hdec
    have h1 : process_record pureEnv st r = mark_error st r.id := by
      unfold process_record
      rw [hdec]
      simp [pureEnv]
    rw [h1]
    exact mark_error_flag st r.id r hmem rfl

/-- Buffer row whose payload decodes to a top-level string. -/
def c5Rec : RawRecord :=
  { id := 2, region_id := "46", district_id := "46440",
    raw_json := Json.str "oops", city_name := none,
    date_processing := false, is_error := false }

/-- Initial state for the C5 witness. -/
def c5St : PState := { buffer := [c5Rec], dtp_main := [] }

theorem C5_witness :
    decode_items (Json.obj [("KartId", Json.str "K")])
        = some [Json.obj [("KartId", Json.str "K")]]
    ∧ decode_items (Json.arr [Json.num 3]) = some [Json.num 3]
    ∧ (notObjArr (Json.num 3) = true ∧ decode_items (Json.num 3) = none)
    ∧ (c5Rec ∈ c5St.buffer ∧ decode_items c5Rec.raw_json = none
       ∧ ∃ y ∈ (process_record pureEnv c5St c5Rec).buffer,
           y.id = c5Rec.id ∧ y.is_error = true
             ∧ y.date_processing = c5Rec.date_processing) := by
  refine ⟨C5_shape.1 [("KartId", Json.str "K")], C5_shape.2.1 [Json.num 3],
    ⟨rfl, C5_shape.2.2.1 (Json.num 3) rfl⟩,
    List.mem_singleton_self c5Rec, rfl, ?_⟩
  exact C5_shape.2.2.2 c5St c5Rec (List.mem_singleton_self c5Rec) rfl

/-- Buffer row holding one item with a business key and nothing else,
with a provenance city name. -/
def c6Rec : RawRecord :=
  { id := 3, region_id := "46", district_id := "46440",
    raw_json := Json.obj [("KartId", Json.str "K1")],
    city_name := some "Лобня", date_processing := false, is_error := false }

/-- Initial state for the C6 scenario. -/
def c6St : PState := { buffer := [c6Rec], dtp_main := [] }

/-- Claim C6 counterexample: normalizing an item that has only a
business key does NOT leave every string field empty: the settlement
column receives the provenance city name fallback
(info.get of the n_p key defaults to city_name, never to the empty
string), here the city of the fetch. -/
theorem C6_counterexample :
    (process_record pureEnv c6St c6Rec).dtp_main.map (fun r => r.settlement)
        = [Json.str "Лобня"]
    ∧ Json.str "Лобня" ≠ Json.str "" := by
  refine ⟨rfl, ?_⟩
  intro h
  injection h with h2
  exact absurd h2 (by decide)

/-- Claim C6 (amended): an item holding only a valid business key
normalizes without failing into exactly one dtp_main row whose numeric
fields are all 0 (counts) and 0 (coordinates), whose date and time are
null, and whose string fields are all empty EXCEPT settlement, which
takes the provenance city name fallback; processing such an item appends
exactly that one row to an empty destination table, marks the record
processed and raises nothing. -/
theorem C6_amended :
    (∀ (reg dist city : String) (k : Json),
        buildRow reg dist city [("KartId", k)] [] k =
          { kart_id := k, region_id := reg, district_id := dist, row_num := 0,
            dtp_date := none, dtp_time := none, district := Json.str "",
            dtp_type := Json.str "", deaths := 0, wounded := 0,
            vehicles_count := 0, participants_count := 0,
            emtp_number := Json.str "", settlement := Json.str city,
            street := Json.str "", house := Json.str "", road := Json.str "",
            km := Json.str "", m := Json.str "", road_category := Json.str "",
            road_class := Json.str "", road_quality := Json.str "",
            weather := Json.str "", road_condition := Json.str "",
            lighting := Json.str "", dtp_severity := Json.str "",
            coord_w := 0, coord_l := 0 })
    ∧ (∀ (rid : Nat) (reg dist city : String) (k : Json) (idx : Nat) (st : PState),
        jsonFalsy k = false → st.dtp_main = [] →
        processItems pureEnv rid reg dist city [Json.obj [("KartId", k)]] idx st
          = (mark_processed
              { st with dtp_main := [buildRow reg dist city [("KartId", k)] [] k] }
              rid, false)) := by
  constructor
  · intro reg dist city k
    rfl
  · intro rid reg dist city k idx st hk h0
    have hkart : (dictGet [("KartId", k)] "KartId").getD Json.null = k := rfl
    have hinfo : getInfo [("KartId", k)] = some [] := rfl
    have hpf : pureEnv.insert_fault idx = none := rfl
    have hins : insert_dtp_main st (buildRow reg dist city [("KartId", k)] [] k)
        = { st with dtp_main := [buildRow reg dist city [("KartId", k)] [] k] } := by
      unfold insert_dtp_main
      rw [h0]
      simp
    simp only [processItems, hkart, hk, hinfo, hpf, hins, Bool.false_eq_true, if_false]

theorem C6_witness :
    (jsonFalsy (Json.str "K1") = false ∧ (PState.mk [] []).dtp_main = []
     ∧ processItems pureEnv 3 "46" "46440" "Лобня"
         [Json.obj [("KartId", Json.str "K1")]] 0 ⟨[], []⟩
       = (mark_processed
           (PState.mk []
             [buildRow "46" "46440" "Лобня" [("KartId", Json.str "K1")] []
               (Json.str "K1")]) 3, false)) := by
  refine ⟨rfl, rfl, ?_⟩
  exact C6_amended.2 3 "46" "46440" "Лобня" (Json.str "K1") 0 ⟨[], []⟩ rfl rfl

theorem mem_insertById (r : RawRecord) :
    ∀ (l : List RawRecord) (x : RawRecord), x ∈ insertById r l ↔ x = r ∨ x ∈ l := by
  intro l
  induction l with
  | nil => intro x; simp [insertById]
  | cons a t ih =>
    intro x
    simp only [insertById]
    split
    · simp [List.mem_cons]
    · simp only [List.mem_cons, ih]
      tauto

theorem pairwise_insertById (r : RawRecord) :
    ∀ l : List RawRecord, l.Pairwise (fun a b => a.id ≤ b.id) →
      (insertById r l).Pairwise (fun a b => a.id ≤ b.id) := by
  intro l
  induction l with
  | nil => intro _; simp [insertById]
  | cons a t ih =>
    intro h
    rw [List.pairwise_cons] at h
    obtain ⟨ha, ht⟩ := h
    simp only [insertById]
    split
    · rename_i hle
      refine List.pairwise_cons.mpr ⟨?_, List.pairwise_cons.mpr ⟨ha, ht⟩⟩
      intro b hb
      rcases List.mem_cons.mp hb with rfl | hbt
      · exact hle
      · exact le_trans hle (ha b hbt)
    · rename_i hnle
      refine List.pairwise_cons.mpr ⟨?_, ih ht⟩
      intro b hb
      rcases (mem_insertById r t b).mp hb with rfl | hbt
      · exact Nat.le_of_not_le hnle
      · exact ha b hbt

theorem mem_sortById :
    ∀ (l : List RawRecord) (x : RawRecord), x ∈ sortById l ↔ x ∈ l := by
  intro l
  induction l with
  | nil => intro x; simp [sortById]
  | cons a t ih =>
    intro x
    have hstep : sortById (a :: t) = insertById a (sortById t) := rfl
    rw [hstep, mem_insertById]
    simp [ih, List.mem_cons]

theorem pairwise_sortById :
    ∀ l : List RawRecord, (sortById l).Pairwise (fun a b => a.id ≤ b.id) := by
  intro l
  induction l with
  | nil => simp [sortById]
  | cons a t ih =>
    have hstep : sortById (a :: t) = insertById a (sortById t) := rfl
    rw [hstep]
    exact pairwise_insertById a (sortById t) ih

theorem take_eq_cons_head {α : Type} :
    ∀ (l : List α) (n : Nat) (hd : α) (t : List α),
      l.take n = hd :: t → ∃ t2, l = hd :: t2 := by
  intro l n hd t h
  cases l with
  | nil => simp at h
  | cons a l2 =>
    cases n with
    | zero => simp at h
    | succ n2 =>
      rw [List.take_succ_cons] at h
      injection h with h1 h2
      exact ⟨l2, by rw [h1]⟩

/-- The four eligible buffer rows of the ordering example, ids 5,2,9,1. -/
def exR5 : RawRecord :=
  { id := 5, region_id := "", district_id := "", raw_json := Json.null,
    city_name := none, date_processing := false, is_error := false }

def exR2 : RawRecord := { exR5 with id := 2 }

def exR9 : RawRecord := { exR5 with id := 9 }

def exR1 : RawRecord := { exR5 with id := 1 }

/-- Buffer state of the ordering example. -/
def exSt : PState := { buffer := [exR5, exR2, exR9, exR1], dtp_main := [] }

/-- Claim C7: batch selection returns at most the requested number of
rows, every returned row is an eligible buffer row, the returned rows
are ordered by ascending id, the head of a nonempty selection has the
least id among all eligible rows, and on the example buffer with ids
5,2,9,1 a selection of 2 returns ids 1,2. -/
theorem C7_select_batch :
    (∀ (st : PState) (lim : Nat), (select_batch st lim).length ≤ lim)
    ∧ (∀ (st : PState) (lim : Nat) (x : RawRecord),
        x ∈ select_batch st lim → x ∈ st.buffer ∧ eligible x = true)
    ∧ (∀ (st : PState) (lim : Nat),
        (select_batch st lim).Pairwise (fun a b => a.id ≤ b.id))
    ∧ (∀ (st : PState) (lim : Nat) (hd : RawRecord) (t : List RawRecord),
        select_batch st lim = hd :: t →
        ∀ x ∈ st.buffer, eligible x = true → hd.id ≤ x.id)
    ∧ ((select_batch exSt 2).map (fun r => r.id) = [1, 2]) := by
  refine ⟨?_, ?_, ?_, ?_, rfl⟩
  · intro st lim
    exact List.length_take_le lim _
  · intro st lim x hx
    have hmem : x ∈ sortById (st.buffer.filter eligible) := List.mem_of_mem_take hx
    have := (mem_sortById _ x).mp hmem
    exact ⟨(List.mem_filter.mp this).1, (List.mem_filter.mp this).2⟩
  · intro st lim
    exact List.Pairwise.sublist (List.take_sublist _ _) (pairwise_sortById _)
  · intro st lim hd t heq x hx he
    obtain ⟨t2, h2⟩ := take_eq_cons_head (sortById (st.buffer.filter eligible)) lim hd t heq
    have hsort := pairwise_sortById (st.buffer.filter eligible)
    have hxmem : x ∈ sortById (st.buffer.filter eligible) :=
      (mem_sortById _ x).mpr (List.mem_filter.mpr ⟨hx, he⟩)
    rw [h2] at hxmem hsort
    rcases List.mem_cons.mp hxmem with rfl | hxt
    · exact le_refl _
    · exact (List.pairwise_cons.mp hsort).1 x hxt

theorem C7_witness :
    ((select_batch exSt 2).length ≤ 2)
    ∧ (exR1 ∈ select_batch exSt 2 ∧ exR1 ∈ exSt.buffer ∧ eligible exR1 = true)
    ∧ ((select_batch exSt 2).Pairwise (fun a b => a.id ≤ b.id))
    ∧ (select_batch exSt 2 = exR1 :: [exR2] ∧ exR9 ∈ exSt.buffer
       ∧ eligible exR9 = true ∧ exR1.id ≤ exR9.id) := by
  have hsel : select_batch exSt 2 = [exR1, exR2] := rfl
  have h9 : exR9 ∈ exSt.buffer := by
    show exR9 ∈ [exR5, exR2, exR9, exR1]
    simp
  refine ⟨C7_select_batch.1 exSt 2, ⟨?_, ?_, rfl⟩, C7_select_batch.2.2.1 exSt 2,
    hsel, h9, rfl, ?_⟩
  · rw [hsel]; simp
  · exact (C7_select_batch.2.1 exSt 2 exR1 (by rw [hsel]; simp)).1
  · exact C7_select_batch.2.2.2.1 exSt 2 exR1 [exR2] hsel exR9 h9 rfl

/-- Claim C8: connection establishment makes at most 3 attempts, sleeps
2 ^ attempt seconds after each failed attempt except the last (so three
failures sleep exactly 1 and then 2 seconds, with no sleep after the
final failure), succeeds as soon as an attempt succeeds, and when every
attempt fails the whole run aborts with the state untouched, processing
no record. -/
theorem C8_connection_retry :
    (∀ o : Nat → Bool, o 0 = true → get_connection o = (true, []))
    ∧ (∀ o : Nat → Bool, o 0 = false → o 1 = true → get_connection o = (true, [1]))
    ∧ (∀ o : Nat → Bool, o 0 = false → o 1 = false → o 2 = true →
        get_connection o = (true, [1, 2]))
    ∧ (∀ o : Nat → Bool, o 0 = false → o 1 = false → o 2 = false →
        get_connection o = (false, [1, 2]))
    ∧ (∀ (o : Nat → Bool) (fuel : Nat) (st : PState),
        o 0 = false → o 1 = false → o 2 = false → runJob o fuel st = st) := by
  refine ⟨?_, ?_, ?_, ?_, ?_⟩
  · intro o h0
    simp [get_connection, get_connection_go, h0]
  · intro o h0 h1
    simp [get_connection, get_connection_go, h0, h1]
  · intro o h0 h1 h2
    norm_num [get_connection, get_connection_go, h0, h1, h2]
  · intro o h0 h1 h2
    norm_num [get_connection, get_connection_go, h0, h1, h2]
  · intro o fuel st h0 h1 h2
    have hc : get_connection o = (false, [1, 2]) := by
      norm_num [get_connection, get_connection_go, h0, h1, h2]
    simp [runJob, hc]

theorem C8_witness :
    ((fun _ : Nat => true) 0 = true ∧ get_connection (fun _ => true) = (true, []))
    ∧ ((fun i : Nat => i == 1) 0 = false ∧ (fun i : Nat => i == 1) 1 = true
       ∧ get_connection (fun i => i == 1) = (true, [1]))
    ∧ ((fun i : Nat => i == 2) 0 = false ∧ (fun i : Nat => i == 2) 1 = false
       ∧ (fun i : Nat => i == 2) 2 = true
       ∧ get_connection (fun i => i == 2) = (true, [1, 2]))
    ∧ ((fun _ : Nat => false) 0 = false ∧ (fun _ : Nat => false) 1 = false
       ∧ (fun _ : Nat => false) 2 = false
       ∧ get_connection (fun _ => false) = (false, [1, 2]))
    ∧ runJob (fun _ => false) 5 c10St = c10St := by
  refine ⟨⟨rfl, ?_⟩, ⟨rfl, rfl, ?_⟩, ⟨rfl, rfl, rfl, ?_⟩, ⟨rfl, rfl, rfl, ?_⟩, ?_⟩
  · exact C8_connection_retry.1 (fun _ => true) rfl
  · exact C8_connection_retry.2.1 (fun i => i == 1) rfl rfl
  · exact C8_connection_retry.2.2.1 (fun i => i == 2) rfl rfl rfl
  · exact C8_connection_retry.2.2.2.1 (fun _ => false) rfl rfl rfl
  · exact C8_connection_retry.2.2.2.2 (fun _ => false) 5 c10St rfl rfl rfl

/-- Claim C9: with no explicit window the run defaults to the trailing
six-month window ending at the current (year, month): the end equals the
current year and month, the start month is the current month minus 5
with 12 added and the year decremented when that difference is
non-positive, the resulting start month is a valid month, and start and
end are exactly five calendar months apart (six months inclusive). -/
theorem C9_default_window :
    ∀ y m : Int, 1 ≤ m → m ≤ 12 →
      (get_date_range ⟨none, none, none, none⟩ y m).2.2.1 = y
      ∧ (get_date_range ⟨none, none, none, none⟩ y m).2.2.2 = m
      ∧ (get_date_range ⟨none, none, none, none⟩ y m).1
          = (if m - 5 ≤ 0 then y - 1 else y)
      ∧ (get_date_range ⟨none, none, none, none⟩ y m).2.1
          = (if m - 5 ≤ 0 then m - 5 + 12 else m - 5)
      ∧ 1 ≤ (get_date_range ⟨none, none, none, none⟩ y m).2.1
      ∧ (get_date_range ⟨none, none, none, none⟩ y m).2.1 ≤ 12
      ∧ y * 12 + m - ((get_date_range ⟨none, none, none, none⟩ y m).1 * 12
          + (get_date_range ⟨none, none, none, none⟩ y m).2.1) = 5 := by
  intro y m h1 h2
  simp only [get_date_range, Option.getD_none]
  split_ifs with h <;> refine ⟨trivial, trivial, trivial, trivial, ?_, ?_, ?_⟩ <;> omega

theorem C9_witness :
    (1 ≤ (10 : Int) ∧ (10 : Int) ≤ 12)
    ∧ ((get_date_range ⟨none, none, none, none⟩ 2026 10).2.2.1 = 2026
       ∧ (get_date_range ⟨none, none, none, none⟩ 2026 10).2.2.2 = 10
       ∧ (get_date_range ⟨none, none, none, none⟩ 2026 10).1
           = (if (10 : Int) - 5 ≤ 0 then 2026 - 1 else 2026)
       ∧ (get_date_range ⟨none, none, none, none⟩ 2026 10).2.1
           = (if (10 : Int) - 5 ≤ 0 then 10 - 5 + 12 else 10 - 5)
       ∧ 1 ≤ (get_date_range ⟨none, none, none, none⟩ 2026 10).2.1
       ∧ (get_date_range ⟨none, none, none, none⟩ 2026 10).2.1 ≤ 12
       ∧ 2026 * 12 + 10 - ((get_date_range ⟨none, none, none, none⟩ 2026 10).1 * 12
           + (get_date_range ⟨none, none, none, none⟩ 2026 10).2.1) = 5) := by
  exact ⟨⟨by decide, by decide⟩, C9_default_window 2026 10 (by decide) (by decide)⟩

end DTP
